import Mathlib

set_option maxRecDepth 100000
set_option maxHeartbeats 1000000

/-!
Verification of the HEXCORE envelope-encryption engine and vault manager.

The development shallowly embeds the Python sources:
* `src/hex_engine.py` — `HexHeader` (pack/unpack of the 114-byte binary
  header), `EncryptionManager` (`encrypt_file`, `decrypt_file`,
  `verify_integrity`);
* `src/hex_file_mgmt.py` — `VaultManager` (`encrypt_and_store`,
  `decrypt_vault`);
* `src/hex_core.py` — `LayoutManager.trigger_action` (UI dispatch only).

Python `str` values are embedded as `List Char` (a Python string is a
sequence of code points, with slicing semantics matching list take/drop);
`bytes` as `List Nat` with each element a byte value. The process-visible
file system is an association list from path to file contents; directories
are not modelled. The concrete cryptographic primitives the engine calls
(Argon2id, AES-GCM, AES-CTR/ChaCha20 keystreams, SHA-256) are embedded as a
bundle of function parameters `CryptoPrims`; the two stream ciphers are
byte-wise XOR against a primitive-supplied keystream, which is exactly their
shape. Properties that depend on the primitives being real cryptography
(GCM tag rejection on a wrong key, hash inequality after a bit flip) appear
as explicit hypotheses at the instances where the source relies on them.
-/

namespace HexCore

/-- Python `bytes`: a list of byte values. -/
abbrev Bytes := List Nat

/-- Python `str`: a list of code points. -/
abbrev PyStr := List Char

/-- The process-visible file system: path ↦ file contents. -/
abbrev FS := List (PyStr × Bytes)

/-- `os.path.exists` / reading a file: first entry for the path, if any. -/
def fsGet (fs : FS) (p : PyStr) : Option Bytes :=
  (fs.find? (fun e => e.1 == p)).map (fun e => e.2)

/-- Writing a file (`open(p, 'wb')` plus the writes): truncate/create `p`. -/
def fsSet (fs : FS) (p : PyStr) (v : Bytes) : FS :=
  (p, v) :: fs.filter (fun e => !(e.1 == p))

/-- `os.remove p`. -/
def fsDel (fs : FS) (p : PyStr) : FS :=
  fs.filter (fun e => !(e.1 == p))

/-- Python `struct` `'ns'` field semantics: pad with zero bytes when the
value is short, truncate when it is long. -/
def padTrunc (n : Nat) (bs : Bytes) : Bytes :=
  bs.take n ++ List.replicate (n - bs.length) 0

/-- Python `s.endswith(suf)`. -/
def pyEndsWith (s suf : PyStr) : Bool :=
  s.drop (s.length - suf.length) == suf

/-- Python `s.startswith(pre)`. -/
def pyStartsWith (s pre : PyStr) : Bool :=
  s.take pre.length == pre

/-- Byte-wise XOR of data against a keystream starting at stream index `i`:
the shape of both CTR-mode AES and ChaCha20 (`encryptor.update` /
`decryptor.update` chunk processing). -/
def xorStream (ks : Nat → Nat) : Nat → Bytes → Bytes
  | _, [] => []
  | i, b :: rest => (b ^^^ ks i) :: xorStream ks (i + 1) rest

/-- The cryptographic primitives the engine calls, as parameters:
`deriveKey` = Argon2id KDF, `gcmEnc`/`gcmDec` = AES-GCM wrap/unwrap of the
DEK (key, nonce, plaintext/ciphertext, associated data; `gcmDec` is `none`
on `InvalidTag`), `hash` = SHA-256, `ks algo key iv i` = byte `i` of the
body keystream (`algo` 0 = AES-256-CTR, 1 = ChaCha20). -/
structure CryptoPrims where
  deriveKey : PyStr → Bytes → Bytes
  gcmEnc : Bytes → Bytes → Bytes → Bytes → Bytes
  gcmDec : Bytes → Bytes → Bytes → Bytes → Option Bytes
  hash : Bytes → Bytes
  ks : Nat → Bytes → Bytes → Nat → Nat

/-- The random values one call to `encrypt_file` draws: `os.urandom(16)`
header salt, `os.urandom(12)` header IV, `os.urandom(16)` body IV, and the
32-byte DEK (`AESGCM.generate_key(bit_length=256)` or `os.urandom(32)`).
The source always draws them with these lengths; theorems carry the length
facts as hypotheses. -/
structure RandomTape where
  salt : Bytes
  headerIv : Bytes
  bodyIv : Bytes
  dek : Bytes

namespace HexHeader

/-- `b'HEXC'`. -/
def MAGIC : Bytes := [72, 69, 88, 67]

def VERSION : Nat := 1

/-- 4 + 1 + 1 + 16 + 12 + 48 + 32. -/
def HEADER_SIZE : Nat := 114

def ALGO_AES : Nat := 0
def ALGO_CHACHA : Nat := 1

/-- The dictionary `HexHeader.unpack` returns. -/
structure Info where
  algo_id : Nat
  salt : Bytes
  iv : Bytes
  encrypted_dek : Bytes
  stored_checksum : Bytes
  body_start : Nat
deriving DecidableEq, Repr

/-- The bytes `struct.pack(f'<4sBB16s12s{len(encrypted_dek)}s32s', ...)`
produces when it succeeds.  The format string sizes the DEK field by the
actual argument length, so that field is never padded or truncated. -/
def packBytes (salt iv : Bytes) (algo_id : Nat) (encrypted_dek body_checksum : Bytes) : Bytes :=
  MAGIC ++ VERSION :: algo_id :: (padTrunc 16 salt ++ (padTrunc 12 iv ++ (encrypted_dek ++ padTrunc 32 body_checksum)))

/-- `HexHeader.pack`.  `struct.error` (modelled as `none`) occurs exactly
when the `B` field `algo_id` is out of byte range; every `s` field pads or
truncates silently. -/
def pack (salt iv : Bytes) (algo_id : Nat) (encrypted_dek body_checksum : Bytes) : Option Bytes :=
  if algo_id ≤ 255 then some (packBytes salt iv algo_id encrypted_dek body_checksum)
  else none

/-- `(bs.drop off).take len`: one fixed-width field of `struct.unpack`. -/
def extract (bs : Bytes) (off len : Nat) : Bytes :=
  (bs.drop off).take len

/-- `HexHeader.unpack`, with the two `ValueError` messages as the error
cases. -/
def unpack (file_bytes : Bytes) : Except PyStr Info :=
  if file_bytes.length < HEADER_SIZE then
    .error ("INVALID FILE: Header truncated or insufficient data.".data)
  else if file_bytes.take 4 ≠ MAGIC then
    .error ("INVALID FILE: Missing HexCore signature.".data)
  else
    .ok { algo_id := (file_bytes.drop 5).headD 0
          salt := extract file_bytes 6 16
          iv := extract file_bytes 22 12
          encrypted_dek := extract file_bytes 34 48
          stored_checksum := extract file_bytes 82 32
          body_start := HEADER_SIZE }

/-- A header laid out field by field (arbitrary version byte), the shape
`unpack` parses. -/
def magicHeader (ver algo_id : Nat) (salt iv encrypted_dek stored_checksum : Bytes) : Bytes :=
  MAGIC ++ ver :: algo_id :: (salt ++ (iv ++ (encrypted_dek ++ stored_checksum)))

end HexHeader

namespace EncryptionManager

/-- The ciphertext body of one encryption: the source's chunk loop through
`encryptor.update`, i.e. the data XORed against the selected stream cipher's
keystream (the `else` branch of the algorithm dispatch is ChaCha20). -/
def bodyCipher (P : CryptoPrims) (R : RandomTape) (algo_id : Nat) (data : Bytes) : Bytes :=
  xorStream (P.ks (if algo_id = HexHeader.ALGO_AES then 0 else 1) R.dek R.bodyIv) 0 data

/-- `hasher.digest()` of one encryption: SHA-256 over body IV then all
ciphertext chunks. -/
def bodyChecksum (P : CryptoPrims) (R : RandomTape) (algo_id : Nat) (data : Bytes) : Bytes :=
  P.hash (R.bodyIv ++ bodyCipher P R algo_id data)

/-- `aes_wrapper.encrypt(header.iv, dek, associated_data=checksum)`: the DEK
wrapped under the password-derived KEK with the body checksum as AAD. -/
def wrappedDek (P : CryptoPrims) (R : RandomTape) (password : PyStr) (algo_id : Nat) (data : Bytes) : Bytes :=
  P.gcmEnc (P.deriveKey password R.salt) R.headerIv R.dek (bodyChecksum P R algo_id data)

/-- `EncryptionManager.encrypt_file`.  The random draws are supplied by the
tape `R`; in the source `R.dek` is always 32 bytes, `R.salt` 16, `R.headerIv`
12 and `R.bodyIv` 16, so the cipher constructors never reject them and the
model elides those checks.  A `struct.error` from `pack` (algo byte out of
range) is caught by the `except Exception` handler, which removes the
partial output file and returns the failure string. -/
def encrypt_file (P : CryptoPrims) (R : RandomTape) (fs : FS) (file_path password : PyStr) (algo_id : Nat) : PyStr × FS :=
  match fsGet fs file_path with
  | none => ("ERROR: File not found.".data, fs)
  | some data =>
    if data.take 4 = HexHeader.MAGIC then ("ERROR: File is already encrypted".data, fs)
    else
      let new_path := file_path ++ ".hxc".data
      let ct := bodyCipher P R algo_id data
      let checksum := bodyChecksum P R algo_id data
      let encrypted_dek := wrappedDek P R password algo_id data
      match HexHeader.pack R.salt R.headerIv algo_id encrypted_dek checksum with
      | some header_bytes => (new_path, fsSet fs new_path (header_bytes ++ R.bodyIv ++ ct))
      | none => ("ENCRYPTION FAILED: ubyte format requires 0 <= number <= 255".data, fsDel fs new_path)

/-- `EncryptionManager.decrypt_file`.  The first error case is the
`FileNotFoundError` from `open`, caught by the generic handler; unpack
`ValueError`s are returned as their message with no file touched; an
`InvalidTag` from the DEK unwrap returns the combined error with no file
touched.  After unwrap the output file is created; a cipher-constructor
`ValueError` (body IV not 16 bytes, or an unwrapped key of invalid size)
is caught by the `except ValueError` handler, which performs no cleanup,
leaving the just-created empty output file.  An integrity mismatch deletes
the written plaintext. -/
def decrypt_file (P : CryptoPrims) (fs : FS) (file_path password : PyStr) : PyStr × FS :=
  match fsGet fs file_path with
  | none => ("DECRYPTION ERROR: No such file or directory".data, fs)
  | some content =>
    match HexHeader.unpack (content.take HexHeader.HEADER_SIZE) with
    | .error msg => (msg, fs)
    | .ok info =>
      match P.gcmDec (P.deriveKey password info.salt) info.iv info.encrypted_dek info.stored_checksum with
      | none => ("WRONG PASSWORD OR TAMPERED HEADER".data, fs)
      | some dek =>
        let orig_path :=
          if pyEndsWith file_path (".hxc".data) then file_path.take (file_path.length - 4)
          else file_path ++ ".decrypted".data
        let body := content.drop info.body_start
        let body_iv := body.take 16
        let keyOk : Bool :=
          if info.algo_id = HexHeader.ALGO_AES then
            decide (dek.length = 16 ∨ dek.length = 24 ∨ dek.length = 32)
          else decide (dek.length = 32)
        if body_iv.length = 16 ∧ keyOk = true then
          let ct := body.drop 16
          let pt := xorStream (P.ks (if info.algo_id = HexHeader.ALGO_AES then 0 else 1) dek body_iv) 0 ct
          if P.hash (body_iv ++ ct) = info.stored_checksum then
            ("SUCCESS".data, fsSet fs orig_path pt)
          else
            ("ERROR: INTEGRITY CHECK FAILED (BODY CORRUPTED)".data, fsDel (fsSet fs orig_path pt) orig_path)
        else ("Invalid key size or nonce size".data, fsSet fs orig_path [])

/-- `EncryptionManager.verify_integrity`. -/
def verify_integrity (P : CryptoPrims) (fs : FS) (file_path : PyStr) : PyStr :=
  match fsGet fs file_path with
  | none => "ERROR READING FILE".data
  | some content =>
    let header_data := content.take HexHeader.HEADER_SIZE
    if header_data.length < HexHeader.HEADER_SIZE then "INVALID FILE".data
    else if header_data.take 4 ≠ HexHeader.MAGIC then "INVALID FILE".data
    else
      match HexHeader.unpack header_data with
      | .error _ => "INVALID FILE".data
      | .ok info =>
        if info.stored_checksum = P.hash (content.drop HexHeader.HEADER_SIZE) then
          "INTEGRITY OK".data
        else "CORRUPTED".data

end EncryptionManager

/-- `os.path.basename` (paths without a trailing separator). -/
def basename (s : PyStr) : PyStr :=
  (s.reverse.takeWhile (fun c => ¬ c = '/')).reverse

/-- `os.path.join dir name` for a directory path without trailing slash. -/
def pathJoin (dir name : PyStr) : PyStr :=
  dir ++ '/' :: name

/-- `os.path.splitext` on a bare filename: split at the last dot. -/
def splitext (s : PyStr) : PyStr × PyStr :=
  let revExt := s.reverse.takeWhile (fun c => ¬ c = '.')
  if revExt.length = s.length then (s, [])
  else (s.take (s.length - revExt.length - 1), '.' :: revExt.reverse)

/-- `os.path.abspath` for a process working directory `cwd`: prefix `cwd`
to relative paths (inputs are assumed already normalized; `abspath` does no
symlink resolution). -/
def abspath (cwd p : PyStr) : PyStr :=
  if pyStartsWith p ("/".data) then p else cwd ++ '/' :: p

/-- Digits of a decimal numeral, used for Python `str(n)` interpolation. -/
def natStr (n : Nat) : PyStr := (toString n).data

namespace VaultManager

/-- The batch `results` dictionary of `decrypt_vault`. -/
structure BatchStats where
  success : Nat
  failed : Nat
  errors : List PyStr
deriving DecidableEq, Repr

/-- The `Union[str, Dict]` return of `decrypt_vault`: the `"VAULT IS
EMPTY"` string, or the stats dictionary. -/
inductive VaultOutcome where
  | empty : VaultOutcome
  | stats : BatchStats → VaultOutcome
deriving DecidableEq, Repr

/-- `glob.glob(os.path.join(VAULT_DIR, "*.hxc"))`: files directly inside
the vault directory carrying the `.hxc` suffix. -/
def hxcFiles (fs : FS) (vault_dir : PyStr) : List PyStr :=
  (fs.map (fun e => e.1)).filter (fun p =>
    pyStartsWith p (vault_dir ++ "/".data) && pyEndsWith p (".hxc".data)
      && ((p.drop (vault_dir.length + 1)).all (fun c => ¬ c = '/')))

/-- `file_path[:-4]` when the name ends in `.hxc`, else unchanged. -/
def stripHxc (p : PyStr) : PyStr :=
  if pyEndsWith p (".hxc".data) then p.take (p.length - 4) else p

/-- The `while os.path.exists(target_path)` collision loop of
`decrypt_vault`, with explicit fuel (the loop terminates because the file
system holds finitely many names; stats never depend on the chosen name). -/
def resolveTarget (fs : FS) (export_dir base ext : PyStr) : Nat → Nat → PyStr → PyStr
  | _, 0, t => t
  | counter, fuel + 1, t =>
    if (fsGet fs t).isSome then
      resolveTarget fs export_dir base ext (counter + 1) fuel
        (pathJoin export_dir (base ++ '_' :: natStr counter ++ ext))
    else t

/-- The body of the `for encrypted_file in vault_files` loop of
`decrypt_vault`.  `shutil.move` is read–delete–write. -/
def processOne (engine : FS → PyStr → PyStr × FS) (export_dir : PyStr) (delete_encrypted : Bool)
    (st : BatchStats × FS) (encrypted_file : PyStr) : BatchStats × FS :=
  let acc := st.1
  let fs := st.2
  let res := engine fs encrypted_file
  let status := res.1
  let fs1 := res.2
  let plaintext_path := stripHxc encrypted_file
  let filename := basename plaintext_path
  if status = "SUCCESS".data then
    match fsGet fs1 plaintext_path with
    | some v =>
      let be := splitext filename
      let target_path := resolveTarget fs1 export_dir be.1 be.2 1 (fs1.length + 1) (pathJoin export_dir filename)
      let fs2 := fsSet (fsDel fs1 plaintext_path) target_path v
      let fs3 := if delete_encrypted then fsDel fs2 encrypted_file else fs2
      ({ acc with success := acc.success + 1 }, fs3)
    | none =>
      ({ acc with failed := acc.failed + 1,
                  errors := acc.errors ++ ["Decryption success but file missing: ".data ++ filename] }, fs1)
  else
    ({ acc with failed := acc.failed + 1,
                errors := acc.errors ++ [basename encrypted_file ++ ": ".data ++ status] }, fs1)

/-- `VaultManager.decrypt_vault`, the engine injected as a capability. -/
def decrypt_vault (engine : FS → PyStr → PyStr × FS) (export_dir : PyStr) (delete_encrypted : Bool)
    (fs : FS) (vault_dir : PyStr) : VaultOutcome × FS :=
  let vault_files := hxcFiles fs vault_dir
  if vault_files.isEmpty then (.empty, fs)
  else
    let r := vault_files.foldl (processOne engine export_dir delete_encrypted) (⟨0, 0, []⟩, fs)
    (.stats r.1, r.2)

/-- `VaultManager.encrypt_and_store`, the engine injected as a capability
(`engine fs src password algo_id` returns the engine status and the new
file system). -/
def encrypt_and_store (engine : FS → PyStr → PyStr → Nat → PyStr × FS) (cwd vault_dir : PyStr)
    (fs : FS) (original_path password : PyStr) (algo_id : Nat) (delete_original : Bool) : PyStr × FS :=
  if (fsGet fs original_path).isNone then ("ERROR: File does not exist.".data, fs)
  else if pyStartsWith (abspath cwd original_path) (abspath cwd vault_dir) then
    ("ERROR: File is already in the Vault.".data, fs)
  else
    let res := engine fs original_path password algo_id
    let encrypted_path := res.1
    let fs1 := res.2
    if pyStartsWith encrypted_path ("ERROR:".data) || pyStartsWith encrypted_path ("ENCRYPTION FAILED:".data) then
      (encrypted_path, fs1)
    else
      let filename := basename encrypted_path
      let dest_path := pathJoin vault_dir filename
      let fs2 := if (fsGet fs1 dest_path).isSome then fsDel fs1 dest_path else fs1
      match fsGet fs2 encrypted_path with
      | none => ("VAULT ERROR: No such file or directory: ".data ++ encrypted_path, fs2)
      | some v =>
        let fs3 := fsSet (fsDel fs2 encrypted_path) dest_path v
        if delete_original then
          if (fsGet fs3 original_path).isSome then
            ("SUCCESS: File Encrypted & Moved to Vault".data, fsDel fs3 original_path)
          else ("SUCCESS: Encrypted, but failed to delete original.".data, fs3)
        else ("SUCCESS: File Encrypted & Moved to Vault".data, fs3)

/-- The spec's wording of the vault-containment guard, for comparison with
the source's raw `startswith` check: the canonical absolute source path
equals the canonical vault directory or lies strictly under it. -/
def specInsideVault (cwd vault_dir src : PyStr) : Bool :=
  abspath cwd src == abspath cwd vault_dir
    || pyStartsWith (abspath cwd src) (abspath cwd vault_dir ++ "/".data)

end VaultManager

namespace LayoutManager

/-- The observable dispatch of `LayoutManager.trigger_action` (the UI side
effects reduced to which branch fires). -/
inductive UIAction where
  | idle : UIAction
  | exitApp : UIAction
  | themeToggle : UIAction
  | lockSystem : UIAction
  | maintenance : UIAction
  | openFilePicker : PyStr → UIAction
  | notSupported : PyStr → UIAction
  | openVaultPicker : PyStr → UIAction
deriving DecidableEq, Repr

/-- `LayoutManager.trigger_action`: the branch on the triggered button
label.  The RSA button only logs the not-supported banner; it never reaches
the engine. -/
def trigger_action (loading : Bool) (text : PyStr) : UIAction :=
  if loading then .idle
  else if text = "EXIT".data then .exitApp
  else if text = "THEME".data then .themeToggle
  else if text = "LOCK SYSTEM".data then .lockSystem
  else if text = "CHANGE PASSWORD".data then .maintenance
  else if text = "AES-256".data ∨ text = "CHACHA20".data then
    .openFilePicker ("SELECT FILE FOR ".data ++ text)
  else if text = "RSA-4096".data then .notSupported ("ALGORITHM NOT SUPPORTED".data)
  else if text = "RESTORE".data ∨ text = "VERIFY".data then
    .openVaultPicker ("BATCH ".data ++ text ++ " (ALL FILES)".data)
  else .idle

end LayoutManager

/-! Executable stand-ins for the cryptographic primitives

Concrete computable instantiations of `CryptoPrims`, used to evaluate the
theorems on closed inputs.  They share the primitives' shapes (the GCM
stand-in appends a 16-byte tag over key, nonce and associated data and
rejects a mismatched tag; the hash stand-in always returns 32 bytes) but no
cryptographic strength is claimed for them. -/

/-- Accumulating byte mixer used by the stand-in primitives. -/
def mixBytes (l : Bytes) : Nat :=
  l.foldl (fun a b => (a * 31 + b + 1) % 65536) 7

def toyDeriveKey (password : PyStr) (salt : Bytes) : Bytes :=
  padTrunc 32 (password.map Char.toNat ++ salt)

def toyHash (b : Bytes) : Bytes :=
  padTrunc 32 (b.length :: b.map (fun x => (x + 1) % 256))

def toyTag (k iv aad : Bytes) (n : Nat) : Bytes :=
  padTrunc 16 [mixBytes k % 256, mixBytes iv % 256, mixBytes aad % 256, n % 256]

def toyGcmEnc (k iv pt aad : Bytes) : Bytes :=
  pt ++ toyTag k iv aad pt.length

def toyGcmDec (k iv ct aad : Bytes) : Option Bytes :=
  if 16 ≤ ct.length ∧ ct.drop (ct.length - 16) = toyTag k iv aad (ct.length - 16) then
    some (ct.take (ct.length - 16))
  else none

def toyKs (algo : Nat) (key iv : Bytes) (i : Nat) : Nat :=
  (mixBytes key + mixBytes iv + algo * 7 + i) % 256

def P0 : CryptoPrims :=
  { deriveKey := toyDeriveKey, gcmEnc := toyGcmEnc, gcmDec := toyGcmDec,
    hash := toyHash, ks := toyKs }

/-- A fixed random tape with the lengths the source always draws. -/
def R0 : RandomTape :=
  { salt := List.replicate 16 1, headerIv := List.replicate 12 2,
    bodyIv := List.replicate 16 3, dek := List.replicate 32 4 }

/-! Basic lemmas about the embedding -/

theorem padTrunc_eq_of_length {bs : Bytes} {n : Nat} (h : bs.length = n) :
    padTrunc n bs = bs := by
  subst h
  simp [padTrunc]

theorem length_padTrunc (n : Nat) (bs : Bytes) : (padTrunc n bs).length = n := by
  simp [padTrunc]
  omega

theorem fsGet_fsSet_self (fs : FS) (p : PyStr) (v : Bytes) :
    fsGet (fsSet fs p v) p = some v := by
  simp [fsGet, fsSet, List.find?]

theorem find?_filter_ne (fs : FS) (p q : PyStr) (h : q ≠ p) :
    (fs.filter (fun e => !(e.1 == p))).find? (fun e => e.1 == q)
      = fs.find? (fun e => e.1 == q) := by
  induction fs with
  | nil => rfl
  | cons e rest ih =>
    by_cases hep : e.1 = p
    · rw [List.filter_cons, if_neg (by simp [hep]), ih,
        List.find?_cons_of_neg _ (by simp [hep, Ne.symm h])]
    · rw [List.filter_cons, if_pos (by simp [hep])]
      by_cases heq : e.1 = q
      · rw [List.find?_cons_of_pos _ (by simp [heq]),
          List.find?_cons_of_pos _ (by simp [heq])]
      · rw [List.find?_cons_of_neg _ (by simp [heq]),
          List.find?_cons_of_neg _ (by simp [heq]), ih]

theorem fsGet_fsSet_ne (fs : FS) (p q : PyStr) (v : Bytes) (h : q ≠ p) :
    fsGet (fsSet fs p v) q = fsGet fs q := by
  unfold fsGet fsSet
  rw [List.find?_cons_of_neg _ (by simp [Ne.symm h]), find?_filter_ne fs p q h]

theorem find?_filter_self (fs : FS) (p : PyStr) :
    (fs.filter (fun e => !(e.1 == p))).find? (fun e => e.1 == p) = none := by
  induction fs with
  | nil => rfl
  | cons e rest ih =>
    by_cases hep : e.1 = p
    · rw [List.filter_cons, if_neg (by simp [hep]), ih]
    · rw [List.filter_cons, if_pos (by simp [hep]),
        List.find?_cons_of_neg _ (by simp [hep]), ih]

theorem fsGet_fsDel_self (fs : FS) (p : PyStr) : fsGet (fsDel fs p) p = none := by
  unfold fsGet fsDel
  rw [find?_filter_self fs p]
  rfl

theorem fsGet_fsDel_ne (fs : FS) (p q : PyStr) (h : q ≠ p) :
    fsGet (fsDel fs p) q = fsGet fs q := by
  unfold fsGet fsDel
  rw [find?_filter_ne fs p q h]

theorem xorStream_xorStream (ks : Nat → Nat) : ∀ (i : Nat) (l : Bytes),
    xorStream ks i (xorStream ks i l) = l
  | _, [] => rfl
  | i, b :: rest => by
    simp [xorStream, xorStream_xorStream ks (i + 1) rest, Nat.xor_assoc]

theorem length_xorStream (ks : Nat → Nat) : ∀ (i : Nat) (l : Bytes),
    (xorStream ks i l).length = l.length
  | _, [] => rfl
  | i, b :: rest => by
    simp [xorStream, length_xorStream ks (i + 1) rest]

theorem pyEndsWith_append (s t : PyStr) : pyEndsWith (s ++ t) t = true := by
  simp [pyEndsWith, List.length_append, Nat.add_sub_cancel, List.drop_left]

theorem take_length_sub_append (s t : PyStr) :
    (s ++ t).take ((s ++ t).length - t.length) = s := by
  simp [List.length_append, Nat.add_sub_cancel, List.take_left]

/-! Parsing the header -/

namespace HexHeader

theorem length_magicHeader (v a : Nat) (salt iv dek ck : Bytes) :
    (magicHeader v a salt iv dek ck).length
      = 6 + (salt.length + (iv.length + (dek.length + ck.length))) := by
  simp [magicHeader, MAGIC]
  omega

theorem length_packBytes (salt iv : Bytes) (a : Nat) (dek ck : Bytes) :
    (packBytes salt iv a dek ck).length = 66 + dek.length := by
  simp [packBytes, MAGIC, length_padTrunc]
  omega

theorem packBytes_eq_magicHeader (salt iv : Bytes) (a : Nat) (dek ck : Bytes)
    (h16 : salt.length = 16) (h12 : iv.length = 12) (h32 : ck.length = 32) :
    packBytes salt iv a dek ck = magicHeader VERSION a salt iv dek ck := by
  simp [packBytes, magicHeader, padTrunc_eq_of_length h16, padTrunc_eq_of_length h12,
    padTrunc_eq_of_length h32]

theorem unpack_magicHeader (v a : Nat) (salt iv dek ck : Bytes)
    (h16 : salt.length = 16) (h12 : iv.length = 12) (h48 : dek.length = 48)
    (h32 : ck.length = 32) :
    unpack (magicHeader v a salt iv dek ck)
      = .ok ⟨a, salt, iv, dek, ck, HEADER_SIZE⟩ := by
  have hlen : (magicHeader v a salt iv dek ck).length = 114 := by
    rw [length_magicHeader]; omega
  have d6 : (magicHeader v a salt iv dek ck).drop 6 = salt ++ (iv ++ (dek ++ ck)) := by
    simp [magicHeader, MAGIC]
  have d22 : (magicHeader v a salt iv dek ck).drop 22 = iv ++ (dek ++ ck) := by
    rw [show (22 : Nat) = 6 + 16 from rfl, ← List.drop_drop, d6, List.drop_left' h16]
  have d34 : (magicHeader v a salt iv dek ck).drop 34 = dek ++ ck := by
    rw [show (34 : Nat) = 22 + 12 from rfl, ← List.drop_drop, d22, List.drop_left' h12]
  have d82 : (magicHeader v a salt iv dek ck).drop 82 = ck := by
    rw [show (82 : Nat) = 34 + 48 from rfl, ← List.drop_drop, d34, List.drop_left' h48]
  unfold unpack
  rw [if_neg (by rw [hlen]; exact by norm_num [HEADER_SIZE])]
  rw [if_neg (by simp [magicHeader, MAGIC])]
  have halgo : ((magicHeader v a salt iv dek ck).drop 5).headD 0 = a := by
    simp [magicHeader, MAGIC]
  rw [show extract (magicHeader v a salt iv dek ck) 6 16 = salt from by
      rw [extract, d6, List.take_left' h16],
    show extract (magicHeader v a salt iv dek ck) 22 12 = iv from by
      rw [extract, d22, List.take_left' h12],
    show extract (magicHeader v a salt iv dek ck) 34 48 = dek from by
      rw [extract, d34, List.take_left' h48],
    show extract (magicHeader v a salt iv dek ck) 82 32 = ck from by
      rw [extract, d82, List.take_of_length_le (by omega)],
    halgo]

end HexHeader

/-! Unfolding the engine on well-formed inputs -/

namespace EncryptionManager

/-- `encrypt_file` on an existing, not-already-encrypted source file with an
algorithm id fitting the header byte: one output file appears at
`file_path + ".hxc"` holding header, body IV and ciphertext. -/
theorem encrypt_file_wf (P : CryptoPrims) (R : RandomTape) (fs : FS)
    (file_path password : PyStr) (algo_id : Nat) (data : Bytes)
    (hfs : fsGet fs file_path = some data)
    (hnm : data.take 4 ≠ HexHeader.MAGIC)
    (halgo : algo_id ≤ 255) :
    encrypt_file P R fs file_path password algo_id
      = (file_path ++ ".hxc".data,
         fsSet fs (file_path ++ ".hxc".data)
           (HexHeader.packBytes R.salt R.headerIv algo_id
              (wrappedDek P R password algo_id data) (bodyChecksum P R algo_id data)
            ++ R.bodyIv ++ bodyCipher P R algo_id data)) := by
  unfold encrypt_file
  rw [hfs]
  simp only [if_neg hnm, HexHeader.pack, if_pos halgo]

/-- `decrypt_file` on a file whose header parses and whose DEK unwraps to a
32-byte key: the outcome is decided by the body-checksum comparison, writing
the recovered plaintext on success and deleting it on mismatch. -/
theorem decrypt_file_wf (P : CryptoPrims) (fs : FS) (file_path password : PyStr)
    (v a : Nat) (salt iv dek ck body_iv ct dekP : Bytes)
    (hfs : fsGet fs file_path
      = some (HexHeader.magicHeader v a salt iv dek ck ++ (body_iv ++ ct)))
    (h16 : salt.length = 16) (h12 : iv.length = 12) (h48 : dek.length = 48)
    (h32 : ck.length = 32) (hbiv : body_iv.length = 16)
    (hun : P.gcmDec (P.deriveKey password salt) iv dek ck = some dekP)
    (hkey : dekP.length = 32) :
    decrypt_file P fs file_path password
      = (if P.hash (body_iv ++ ct) = ck then
           ("SUCCESS".data,
            fsSet fs (if pyEndsWith file_path (".hxc".data) then
                        file_path.take (file_path.length - 4)
                      else file_path ++ ".decrypted".data)
              (xorStream (P.ks (if a = 0 then 0 else 1) dekP body_iv) 0 ct))
         else
           ("ERROR: INTEGRITY CHECK FAILED (BODY CORRUPTED)".data,
            fsDel (fsSet fs (if pyEndsWith file_path (".hxc".data) then
                               file_path.take (file_path.length - 4)
                             else file_path ++ ".decrypted".data)
              (xorStream (P.ks (if a = 0 then 0 else 1) dekP body_iv) 0 ct))
              (if pyEndsWith file_path (".hxc".data) then
                 file_path.take (file_path.length - 4)
               else file_path ++ ".decrypted".data))) := by
  have hmh : (HexHeader.magicHeader v a salt iv dek ck).length = 114 := by
    rw [HexHeader.length_magicHeader]; omega
  have htake : (HexHeader.magicHeader v a salt iv dek ck ++ (body_iv ++ ct)).take
      HexHeader.HEADER_SIZE = HexHeader.magicHeader v a salt iv dek ck :=
    List.take_left' hmh
  have hdrop : (HexHeader.magicHeader v a salt iv dek ck ++ (body_iv ++ ct)).drop
      HexHeader.HEADER_SIZE = body_iv ++ ct :=
    List.drop_left' hmh
  unfold decrypt_file
  rw [hfs]
  simp only [htake, HexHeader.unpack_magicHeader v a salt iv dek ck h16 h12 h48 h32, hun]
  simp only [hdrop, List.take_left' hbiv, List.drop_left' hbiv]
  have hguard : (body_iv.length = 16 ∧
      (if a = HexHeader.ALGO_AES then
        decide (dekP.length = 16 ∨ dekP.length = 24 ∨ dekP.length = 32)
      else decide (dekP.length = 32)) = true) := by
    refine ⟨hbiv, ?_⟩
    by_cases ha : a = HexHeader.ALGO_AES <;> simp [ha, hkey]
  rw [if_pos hguard]
  rfl

/-- The bytes `encrypt_file` leaves in the output file: packed header, body
IV, ciphertext. -/
def encContent (P : CryptoPrims) (R : RandomTape) (password : PyStr) (algo_id : Nat) (data : Bytes) : Bytes :=
  HexHeader.packBytes R.salt R.headerIv algo_id
    (wrappedDek P R password algo_id data) (bodyChecksum P R algo_id data)
  ++ R.bodyIv ++ bodyCipher P R algo_id data

/-- Encrypt-then-decrypt under one password and tape: the encrypted file
appears at `file_path + ".hxc"`, and decrypting it succeeds and writes the
original payload back to `file_path`.  The hypotheses on the primitives are
the facts the source gets from the real ones: the wrapped DEK is 48 bytes,
the hash 32 bytes, and GCM unwrap of a wrap under the same key, nonce and
associated data returns the wrapped plaintext. -/
theorem roundtrip_core (P : CryptoPrims) (R : RandomTape) (fs : FS)
    (file_path password : PyStr) (algo_id : Nat) (payload : Bytes)
    (hfs : fsGet fs file_path = some payload)
    (hnm : payload.take 4 ≠ HexHeader.MAGIC)
    (halgo : algo_id ≤ 255)
    (h16 : R.salt.length = 16) (h12 : R.headerIv.length = 12)
    (hbiv : R.bodyIv.length = 16) (hdek : R.dek.length = 32)
    (h48 : (wrappedDek P R password algo_id payload).length = 48)
    (h32 : (bodyChecksum P R algo_id payload).length = 32)
    (hgcm : P.gcmDec (P.deriveKey password R.salt) R.headerIv
      (wrappedDek P R password algo_id payload) (bodyChecksum P R algo_id payload)
      = some R.dek) :
    encrypt_file P R fs file_path password algo_id
      = (file_path ++ ".hxc".data,
         fsSet fs (file_path ++ ".hxc".data) (encContent P R password algo_id payload)) ∧
    decrypt_file P (fsSet fs (file_path ++ ".hxc".data) (encContent P R password algo_id payload))
        (file_path ++ ".hxc".data) password
      = ("SUCCESS".data,
         fsSet (fsSet fs (file_path ++ ".hxc".data) (encContent P R password algo_id payload))
           file_path payload) := by
  refine ⟨encrypt_file_wf P R fs file_path password algo_id payload hfs hnm halgo, ?_⟩
  have hfs2 : fsGet (fsSet fs (file_path ++ ".hxc".data) (encContent P R password algo_id payload))
      (file_path ++ ".hxc".data)
      = some (HexHeader.magicHeader HexHeader.VERSION algo_id R.salt R.headerIv
          (wrappedDek P R password algo_id payload) (bodyChecksum P R algo_id payload)
          ++ (R.bodyIv ++ bodyCipher P R algo_id payload)) := by
    rw [fsGet_fsSet_self]
    congr 1
    rw [encContent, HexHeader.packBytes_eq_magicHeader _ _ _ _ _ h16 h12 h32,
      List.append_assoc]
  rw [decrypt_file_wf P _ (file_path ++ ".hxc".data) password HexHeader.VERSION algo_id
    R.salt R.headerIv (wrappedDek P R password algo_id payload)
    (bodyChecksum P R algo_id payload) R.bodyIv (bodyCipher P R algo_id payload) R.dek
    hfs2 h16 h12 h48 h32 hbiv hgcm hdek]
  rw [if_pos (show P.hash (R.bodyIv ++ bodyCipher P R algo_id payload)
    = bodyChecksum P R algo_id payload from rfl)]
  rw [if_pos (pyEndsWith_append file_path (".hxc".data))]
  have h4 : (".hxc".data : PyStr).length = 4 := rfl
  rw [← h4, take_length_sub_append]
  simp only [bodyCipher, HexHeader.ALGO_AES]
  rw [xorStream_xorStream]

end EncryptionManager

/-! The claims -/

open EncryptionManager in
/-- Claim C1 (counterexample to the claim as stated): the non-empty payload
`b'HEXC'` — the magic signature itself — cannot be round-tripped: for it,
`encrypt_file` returns the already-encrypted error, changes nothing on
disk, no `.hxc` file exists, and decrypting the would-be output path does
not return SUCCESS. -/
theorem C1_magic_payload_not_roundtripped :
    (encrypt_file P0 R0 [("a".data, [72, 69, 88, 67])] ("a".data) ("p".data) 0).1
      = "ERROR: File is already encrypted".data ∧
    (encrypt_file P0 R0 [("a".data, [72, 69, 88, 67])] ("a".data) ("p".data) 0).2
      = [("a".data, [72, 69, 88, 67])] ∧
    fsGet [(("a".data : PyStr), ([72, 69, 88, 67] : Bytes))] ("a.hxc".data) = none ∧
    (decrypt_file P0 [("a".data, [72, 69, 88, 67])] ("a.hxc".data) ("p".data)).1
      ≠ "SUCCESS".data := by
  decide

open EncryptionManager in
/-- Claim C1 (amended): for every non-empty byte payload *whose first four
bytes are not the magic signature*, every password, and each supported
algorithm id (0 = AES-256-CTR, 1 = ChaCha20), encrypting a file holding
that payload and then decrypting the resulting `.hxc` file under the same
password returns SUCCESS and restores a file whose bytes equal the original
payload.  The hypotheses on `P` state what the source obtains from the real
primitives at this call: the 48-byte wrapped DEK, the 32-byte hash, and
GCM round-trip correctness at the used key, nonce and associated data. -/
theorem C1_encrypt_decrypt_roundtrip (P : CryptoPrims) (R : RandomTape) (fs : FS)
    (file_path password : PyStr) (algo_id : Nat) (payload : Bytes)
    (hfs : fsGet fs file_path = some payload)
    (_hne : payload ≠ [])
    (hnm : payload.take 4 ≠ HexHeader.MAGIC)
    (halgo : algo_id = 0 ∨ algo_id = 1)
    (h16 : R.salt.length = 16) (h12 : R.headerIv.length = 12)
    (hbiv : R.bodyIv.length = 16) (hdek : R.dek.length = 32)
    (h48 : (wrappedDek P R password algo_id payload).length = 48)
    (h32 : (bodyChecksum P R algo_id payload).length = 32)
    (hgcm : P.gcmDec (P.deriveKey password R.salt) R.headerIv
      (wrappedDek P R password algo_id payload) (bodyChecksum P R algo_id payload)
      = some R.dek) :
    (encrypt_file P R fs file_path password algo_id).1 = file_path ++ ".hxc".data ∧
    (decrypt_file P (encrypt_file P R fs file_path password algo_id).2
      (file_path ++ ".hxc".data) password).1 = "SUCCESS".data ∧
    fsGet (decrypt_file P (encrypt_file P R fs file_path password algo_id).2
      (file_path ++ ".hxc".data) password).2 file_path = some payload := by
  have h255 : algo_id ≤ 255 := by rcases halgo with h | h <;> omega
  obtain ⟨he, hd⟩ := roundtrip_core P R fs file_path password algo_id payload
    hfs hnm h255 h16 h12 hbiv hdek h48 h32 hgcm
  rw [he, hd]
  exact ⟨rfl, rfl, fsGet_fsSet_self _ _ _⟩

open EncryptionManager in
/-- Claim C1 witness: a concrete one-byte payload round-trips under the
stand-in primitives with algorithm 0. -/
theorem C1_encrypt_decrypt_roundtrip_witness :
    (encrypt_file P0 R0 [("a".data, [5])] ("a".data) ("p".data) 0).1 = "a".data ++ ".hxc".data ∧
    (decrypt_file P0 (encrypt_file P0 R0 [("a".data, [5])] ("a".data) ("p".data) 0).2
      ("a".data ++ ".hxc".data) ("p".data)).1 = "SUCCESS".data ∧
    fsGet (decrypt_file P0 (encrypt_file P0 R0 [("a".data, [5])] ("a".data) ("p".data) 0).2
      ("a".data ++ ".hxc".data) ("p".data)).2 ("a".data) = some [5] :=
  C1_encrypt_decrypt_roundtrip P0 R0 [("a".data, [5])] ("a".data) ("p".data) 0 [5]
    (by decide) (by decide) (by decide) (Or.inl rfl) (by decide) (by decide) (by decide)
    (by decide) (by decide) (by decide) (by decide)

open EncryptionManager in
/-- Claim C2: on a well-formed encrypted file, whenever the DEK unwrap under
the supplied password fails (an `InvalidTag`, which is what a wrong password
produces under real AES-GCM), `decrypt_file` returns the single combined
wrong-password-or-tampered-header error and the file system is untouched —
no plaintext output file is created or written, so the failure cannot be
SUCCESS and cannot be the integrity error. -/
theorem C2_wrong_password_combined_error (P : CryptoPrims) (fs : FS)
    (file_path password : PyStr) (v a : Nat) (salt iv dek ck body : Bytes)
    (hfs : fsGet fs file_path = some (HexHeader.magicHeader v a salt iv dek ck ++ body))
    (h16 : salt.length = 16) (h12 : iv.length = 12) (h48 : dek.length = 48)
    (h32 : ck.length = 32)
    (hfail : P.gcmDec (P.deriveKey password salt) iv dek ck = none) :
    decrypt_file P fs file_path password
      = ("WRONG PASSWORD OR TAMPERED HEADER".data, fs) := by
  have hmh : (HexHeader.magicHeader v a salt iv dek ck).length = 114 := by
    rw [HexHeader.length_magicHeader]; omega
  have htake : (HexHeader.magicHeader v a salt iv dek ck ++ body).take
      HexHeader.HEADER_SIZE = HexHeader.magicHeader v a salt iv dek ck :=
    List.take_left' hmh
  unfold decrypt_file
  rw [hfs]
  simp only [htake, HexHeader.unpack_magicHeader v a salt iv dek ck h16 h12 h48 h32, hfail]

open EncryptionManager in
/-- Claim C2 witness: a file wrapped under password `p` and decrypted with
password `q` hits the combined error with the file system unchanged. -/
theorem C2_wrong_password_combined_error_witness :
    decrypt_file P0
      [("a.hxc".data,
        HexHeader.magicHeader 1 0 (List.replicate 16 1) (List.replicate 12 2)
          (toyGcmEnc (toyDeriveKey ("p".data) (List.replicate 16 1)) (List.replicate 12 2)
            (List.replicate 32 4) (List.replicate 32 3))
          (List.replicate 32 3) ++ [0, 0, 0])]
      ("a.hxc".data) ("q".data)
      = ("WRONG PASSWORD OR TAMPERED HEADER".data,
         [("a.hxc".data,
           HexHeader.magicHeader 1 0 (List.replicate 16 1) (List.replicate 12 2)
             (toyGcmEnc (toyDeriveKey ("p".data) (List.replicate 16 1)) (List.replicate 12 2)
               (List.replicate 32 4) (List.replicate 32 3))
             (List.replicate 32 3) ++ [0, 0, 0])]) :=
  C2_wrong_password_combined_error P0 _ ("a.hxc".data) ("q".data) 1 0
    (List.replicate 16 1) (List.replicate 12 2)
    (toyGcmEnc (toyDeriveKey ("p".data) (List.replicate 16 1)) (List.replicate 12 2)
      (List.replicate 32 4) (List.replicate 32 3))
    (List.replicate 32 3) [0, 0, 0]
    (by decide) (by decide) (by decide) (by decide) (by decide) (by decide)

open EncryptionManager in
/-- Claim C3: on an encrypted file whose header is intact (the DEK still
unwraps under the correct password) but whose body — body IV or ciphertext —
no longer hashes to the stored checksum (which is what any bit flip in the
body produces under real SHA-256), `decrypt_file` returns the
integrity-check error and the plaintext output file it had written is
deleted before returning: no plaintext remains on disk. -/
theorem C3_body_tamper_integrity_error (P : CryptoPrims) (fs : FS)
    (file_path password : PyStr) (v a : Nat)
    (salt iv dek ck body_iv ct dekP : Bytes)
    (hfs : fsGet fs file_path
      = some (HexHeader.magicHeader v a salt iv dek ck ++ (body_iv ++ ct)))
    (h16 : salt.length = 16) (h12 : iv.length = 12) (h48 : dek.length = 48)
    (h32 : ck.length = 32) (hbiv : body_iv.length = 16)
    (hun : P.gcmDec (P.deriveKey password salt) iv dek ck = some dekP)
    (hkey : dekP.length = 32)
    (htam : P.hash (body_iv ++ ct) ≠ ck) :
    (decrypt_file P fs file_path password).1
      = "ERROR: INTEGRITY CHECK FAILED (BODY CORRUPTED)".data ∧
    fsGet (decrypt_file P fs file_path password).2
      (if pyEndsWith file_path (".hxc".data) then file_path.take (file_path.length - 4)
       else file_path ++ ".decrypted".data) = none := by
  rw [decrypt_file_wf P fs file_path password v a salt iv dek ck body_iv ct dekP
    hfs h16 h12 h48 h32 hbiv hun hkey]
  rw [if_neg htam]
  exact ⟨rfl, fsGet_fsDel_self _ _⟩

open EncryptionManager in
/-- Claim C3 witness: a concrete file whose stored checksum does not match
its body fails the integrity check and leaves no plaintext at the output
path. -/
theorem C3_body_tamper_integrity_error_witness :
    (decrypt_file P0
      [("a.hxc".data,
        HexHeader.magicHeader 1 0 (List.replicate 16 1) (List.replicate 12 2)
          (toyGcmEnc (toyDeriveKey ("p".data) (List.replicate 16 1)) (List.replicate 12 2)
            (List.replicate 32 4) (List.replicate 32 3))
          (List.replicate 32 3) ++ (List.replicate 16 7 ++ [9]))]
      ("a.hxc".data) ("p".data)).1
      = "ERROR: INTEGRITY CHECK FAILED (BODY CORRUPTED)".data ∧
    fsGet (decrypt_file P0
      [("a.hxc".data,
        HexHeader.magicHeader 1 0 (List.replicate 16 1) (List.replicate 12 2)
          (toyGcmEnc (toyDeriveKey ("p".data) (List.replicate 16 1)) (List.replicate 12 2)
            (List.replicate 32 4) (List.replicate 32 3))
          (List.replicate 32 3) ++ (List.replicate 16 7 ++ [9]))]
      ("a.hxc".data) ("p".data)).2
      (if pyEndsWith ("a.hxc".data) (".hxc".data) then ("a.hxc".data : PyStr).take (("a.hxc".data : PyStr).length - 4)
       else "a.hxc".data ++ ".decrypted".data) = none :=
  C3_body_tamper_integrity_error P0 _ ("a.hxc".data) ("p".data) 1 0
    (List.replicate 16 1) (List.replicate 12 2)
    (toyGcmEnc (toyDeriveKey ("p".data) (List.replicate 16 1)) (List.replicate 12 2)
      (List.replicate 32 4) (List.replicate 32 3))
    (List.replicate 32 3) (List.replicate 16 7) [9] (List.replicate 32 4)
    (by decide) (by decide) (by decide) (by decide) (by decide) (by decide)
    (by decide) (by decide) (by decide)

open EncryptionManager in
/-- Claim C9: when `decrypt_file` passes key unwrap and the body checksum
matches, and a file already exists at the derived output path (input path
with `.hxc` stripped, else input path plus `.decrypted`), the call reports
SUCCESS — no error for the collision — and the existing file's content
(`old`, arbitrary) is replaced by the recovered plaintext: no collision
avoidance is applied. -/
theorem C9_existing_output_overwritten (P : CryptoPrims) (fs : FS)
    (file_path password : PyStr) (v a : Nat)
    (salt iv dek ck body_iv ct dekP old : Bytes)
    (hfs : fsGet fs file_path
      = some (HexHeader.magicHeader v a salt iv dek ck ++ (body_iv ++ ct)))
    (h16 : salt.length = 16) (h12 : iv.length = 12) (h48 : dek.length = 48)
    (h32 : ck.length = 32) (hbiv : body_iv.length = 16)
    (hun : P.gcmDec (P.deriveKey password salt) iv dek ck = some dekP)
    (hkey : dekP.length = 32)
    (hok : P.hash (body_iv ++ ct) = ck)
    (_hold : fsGet fs
      (if pyEndsWith file_path (".hxc".data) then file_path.take (file_path.length - 4)
       else file_path ++ ".decrypted".data) = some old) :
    (decrypt_file P fs file_path password).1 = "SUCCESS".data ∧
    fsGet (decrypt_file P fs file_path password).2
      (if pyEndsWith file_path (".hxc".data) then file_path.take (file_path.length - 4)
       else file_path ++ ".decrypted".data)
      = some (xorStream (P.ks (if a = 0 then 0 else 1) dekP body_iv) 0 ct) := by
  rw [decrypt_file_wf P fs file_path password v a salt iv dek ck body_iv ct dekP
    hfs h16 h12 h48 h32 hbiv hun hkey]
  rw [if_pos hok]
  exact ⟨rfl, fsGet_fsSet_self _ _ _⟩

open EncryptionManager in
/-- Claim C9 witness: decrypting `a.hxc` while a file `a` holding other bytes
exists reports SUCCESS and replaces `a` with the recovered plaintext. -/
theorem C9_existing_output_overwritten_witness :
    (decrypt_file P0
      [("a.hxc".data,
        HexHeader.magicHeader 1 0 R0.salt R0.headerIv
          (wrappedDek P0 R0 ("p".data) 0 [5]) (bodyChecksum P0 R0 0 [5])
          ++ (R0.bodyIv ++ bodyCipher P0 R0 0 [5])),
       ("a".data, [9])]
      ("a.hxc".data) ("p".data)).1 = "SUCCESS".data ∧
    fsGet (decrypt_file P0
      [("a.hxc".data,
        HexHeader.magicHeader 1 0 R0.salt R0.headerIv
          (wrappedDek P0 R0 ("p".data) 0 [5]) (bodyChecksum P0 R0 0 [5])
          ++ (R0.bodyIv ++ bodyCipher P0 R0 0 [5])),
       ("a".data, [9])]
      ("a.hxc".data) ("p".data)).2
      (if pyEndsWith ("a.hxc".data) (".hxc".data) then
        ("a.hxc".data : PyStr).take (("a.hxc".data : PyStr).length - 4)
       else "a.hxc".data ++ ".decrypted".data)
      = some (xorStream (P0.ks (if 0 = 0 then 0 else 1) R0.dek R0.bodyIv) 0
          (bodyCipher P0 R0 0 [5])) :=
  C9_existing_output_overwritten P0 _ ("a.hxc".data) ("p".data) 1 0
    R0.salt R0.headerIv (wrappedDek P0 R0 ("p".data) 0 [5]) (bodyChecksum P0 R0 0 [5])
    R0.bodyIv (bodyCipher P0 R0 0 [5]) R0.dek [9]
    (by decide) (by decide) (by decide) (by decide) (by decide) (by decide)
    (by decide) (by decide) (by decide) (by decide)

open EncryptionManager in
/-- Claim C10: encrypting an empty (0-byte) file succeeds for both supported
algorithm ids, the output file is exactly 130 bytes (114-byte header,
16-byte body IV, empty ciphertext), and decrypting it under the same
password returns SUCCESS and restores a 0-byte file. -/
theorem C10_empty_payload_roundtrip (P : CryptoPrims) (R : RandomTape) (fs : FS)
    (file_path password : PyStr) (algo_id : Nat)
    (hfs : fsGet fs file_path = some [])
    (halgo : algo_id = 0 ∨ algo_id = 1)
    (h16 : R.salt.length = 16) (h12 : R.headerIv.length = 12)
    (hbiv : R.bodyIv.length = 16) (hdek : R.dek.length = 32)
    (h48 : (wrappedDek P R password algo_id []).length = 48)
    (h32 : (bodyChecksum P R algo_id []).length = 32)
    (hgcm : P.gcmDec (P.deriveKey password R.salt) R.headerIv
      (wrappedDek P R password algo_id []) (bodyChecksum P R algo_id [])
      = some R.dek) :
    (encrypt_file P R fs file_path password algo_id).1 = file_path ++ ".hxc".data ∧
    fsGet (encrypt_file P R fs file_path password algo_id).2 (file_path ++ ".hxc".data)
      = some (encContent P R password algo_id []) ∧
    (encContent P R password algo_id []).length = 130 ∧
    (decrypt_file P (encrypt_file P R fs file_path password algo_id).2
      (file_path ++ ".hxc".data) password).1 = "SUCCESS".data ∧
    fsGet (decrypt_file P (encrypt_file P R fs file_path password algo_id).2
      (file_path ++ ".hxc".data) password).2 file_path = some [] := by
  have h255 : algo_id ≤ 255 := by rcases halgo with h | h <;> omega
  obtain ⟨he, hd⟩ := roundtrip_core P R fs file_path password algo_id []
    hfs (by decide) h255 h16 h12 hbiv hdek h48 h32 hgcm
  have hlen : (encContent P R password algo_id []).length = 130 := by
    have hc : bodyCipher P R algo_id [] = [] := rfl
    simp [encContent, HexHeader.length_packBytes, h48, hc, hbiv]
  rw [he, hd]
  exact ⟨rfl, fsGet_fsSet_self _ _ _, hlen, rfl, fsGet_fsSet_self _ _ _⟩

open EncryptionManager in
/-- Claim C10 witness: the concrete empty payload round-trips with the
ChaCha20 algorithm id and yields a 130-byte encrypted file. -/
theorem C10_empty_payload_roundtrip_witness :
    (encrypt_file P0 R0 [("a".data, [])] ("a".data) ("p".data) 1).1 = "a".data ++ ".hxc".data ∧
    fsGet (encrypt_file P0 R0 [("a".data, [])] ("a".data) ("p".data) 1).2 ("a".data ++ ".hxc".data)
      = some (encContent P0 R0 ("p".data) 1 []) ∧
    (encContent P0 R0 ("p".data) 1 []).length = 130 ∧
    (decrypt_file P0 (encrypt_file P0 R0 [("a".data, [])] ("a".data) ("p".data) 1).2
      ("a".data ++ ".hxc".data) ("p".data)).1 = "SUCCESS".data ∧
    fsGet (decrypt_file P0 (encrypt_file P0 R0 [("a".data, [])] ("a".data) ("p".data) 1).2
      ("a".data ++ ".hxc".data) ("p".data)).2 ("a".data) = some [] :=
  C10_empty_payload_roundtrip P0 R0 [("a".data, [])] ("a".data) ("p".data) 1
    (by decide) (Or.inr rfl) (by decide) (by decide) (by decide) (by decide)
    (by decide) (by decide) (by decide)

/-- Claim C7 (counterexample to the claim as stated): `pack` given an
`encrypted_dek` of the wrong length (here 0 bytes instead of 48) does not
fail — the format string sizes that field from the argument, so it succeeds
and produces a 66-byte header. -/
theorem C7_pack_short_dek_succeeds :
    HexHeader.pack (List.replicate 16 0) (List.replicate 12 0) 0 []
        (List.replicate 32 0)
      = some (HexHeader.packBytes (List.replicate 16 0) (List.replicate 12 0) 0 []
          (List.replicate 32 0)) ∧
    (HexHeader.packBytes (List.replicate 16 0) (List.replicate 12 0) 0 []
        (List.replicate 32 0)).length = 66 := by
  decide

/-- Claim C7 (amended): `pack` never fails on the length of `encrypted_dek`:
for every `algo_id` that fits the header's one-byte field it succeeds and
produces a header of `66 + len(encrypted_dek)` bytes (114 exactly when the
DEK field is 48 bytes); it fails exactly when `algo_id` exceeds 255 (the
`struct` `B`-field range error). -/
theorem C7_pack_total_in_dek (salt iv : Bytes) (algo_id : Nat) (dek ck : Bytes) :
    (algo_id ≤ 255 →
      HexHeader.pack salt iv algo_id dek ck
          = some (HexHeader.packBytes salt iv algo_id dek ck) ∧
        (HexHeader.packBytes salt iv algo_id dek ck).length = 66 + dek.length) ∧
    (255 < algo_id → HexHeader.pack salt iv algo_id dek ck = none) := by
  constructor
  · intro h
    exact ⟨by rw [HexHeader.pack, if_pos h], HexHeader.length_packBytes salt iv algo_id dek ck⟩
  · intro h
    rw [HexHeader.pack, if_neg (by omega)]

/-- Claim C7 witness: at a 48-byte DEK field and `algo_id` 0 the packed
header is 114 bytes, and at `algo_id` 256 `pack` fails. -/
theorem C7_pack_total_in_dek_witness :
    (HexHeader.pack (List.replicate 16 0) (List.replicate 12 0) 0 (List.replicate 48 0)
        (List.replicate 32 0)
      = some (HexHeader.packBytes (List.replicate 16 0) (List.replicate 12 0) 0
          (List.replicate 48 0) (List.replicate 32 0)) ∧
      (HexHeader.packBytes (List.replicate 16 0) (List.replicate 12 0) 0
          (List.replicate 48 0) (List.replicate 32 0)).length = 66 + 48) ∧
    HexHeader.pack (List.replicate 16 0) (List.replicate 12 0) 256 (List.replicate 48 0)
        (List.replicate 32 0) = none :=
  ⟨(C7_pack_total_in_dek (List.replicate 16 0) (List.replicate 12 0) 0
      (List.replicate 48 0) (List.replicate 32 0)).1 (by decide),
   (C7_pack_total_in_dek (List.replicate 16 0) (List.replicate 12 0) 256
      (List.replicate 48 0) (List.replicate 32 0)).2 (by decide)⟩

/-- Claim C8 (counterexample to the claim as stated): a header whose version
byte is 200 — not the format's version 1 — is accepted by `unpack` without
any rejection: the version byte is read, not validated. -/
theorem C8_unknown_version_accepted :
    HexHeader.unpack (HexHeader.magicHeader 200 0 (List.replicate 16 1)
        (List.replicate 12 2) (List.replicate 48 3) (List.replicate 32 4))
      = .ok ⟨0, List.replicate 16 1, List.replicate 12 2, List.replicate 48 3,
          List.replicate 32 4, 114⟩ :=
  HexHeader.unpack_magicHeader 200 0 (List.replicate 16 1) (List.replicate 12 2)
    (List.replicate 48 3) (List.replicate 32 4) (by decide) (by decide) (by decide) (by decide)

/-- Claim C8 (amended): on every read of an encrypted file's header the
4-byte magic is checked, and an unrecognized magic is always a hard
rejection, never silently skipped: `unpack` errors on it at every input
length (the truncation error when fewer than 114 bytes are present — the
length is checked first — and the missing-signature error otherwise),
`decrypt_file` returns that same error with the file system untouched, and
`verify_integrity` reports INVALID FILE; the version byte, however, is
only read, never validated: `unpack` accepts a well-formed header bearing
any version byte. -/
theorem C8_magic_checked_version_read :
    (∀ bs : Bytes, bs.take 4 ≠ HexHeader.MAGIC →
      HexHeader.unpack bs
        = .error (if bs.length < 114 then
            "INVALID FILE: Header truncated or insufficient data.".data
          else "INVALID FILE: Missing HexCore signature.".data)) ∧
    (∀ (v a : Nat) (salt iv dek ck : Bytes),
      salt.length = 16 → iv.length = 12 → dek.length = 48 → ck.length = 32 →
      HexHeader.unpack (HexHeader.magicHeader v a salt iv dek ck)
        = .ok ⟨a, salt, iv, dek, ck, 114⟩) ∧
    (∀ (P : CryptoPrims) (fs : FS) (file_path password : PyStr) (content : Bytes),
      fsGet fs file_path = some content → content.take 4 ≠ HexHeader.MAGIC →
      EncryptionManager.decrypt_file P fs file_path password
        = ((if content.length < 114 then
              "INVALID FILE: Header truncated or insufficient data.".data
            else "INVALID FILE: Missing HexCore signature.".data), fs)) ∧
    (∀ (P : CryptoPrims) (fs : FS) (file_path : PyStr) (content : Bytes),
      fsGet fs file_path = some content → content.take 4 ≠ HexHeader.MAGIC →
      EncryptionManager.verify_integrity P fs file_path = "INVALID FILE".data) := by
  have hHS : HexHeader.HEADER_SIZE = 114 := rfl
  have hmin : (4 : Nat) ⊓ HexHeader.HEADER_SIZE = 4 := by decide
  have hmagic : ∀ content : Bytes,
      (content.take HexHeader.HEADER_SIZE).take 4 = content.take 4 := by
    intro content
    rw [List.take_take, hmin]
  refine ⟨?_, ?_, ?_, ?_⟩
  · intro bs hm
    by_cases hl : bs.length < 114
    · rw [if_pos hl, HexHeader.unpack,
        if_pos (show bs.length < HexHeader.HEADER_SIZE by omega)]
    · rw [if_neg hl, HexHeader.unpack,
        if_neg (show ¬ bs.length < HexHeader.HEADER_SIZE by omega), if_pos hm]
  · intro v a salt iv dek ck h16 h12 h48 h32
    exact HexHeader.unpack_magicHeader v a salt iv dek ck h16 h12 h48 h32
  · intro P fs file_path password content hfs hm
    by_cases hl : content.length < 114
    · have hup : HexHeader.unpack (content.take HexHeader.HEADER_SIZE)
          = .error ("INVALID FILE: Header truncated or insufficient data.".data) := by
        rw [HexHeader.unpack,
          if_pos (show (content.take HexHeader.HEADER_SIZE).length < HexHeader.HEADER_SIZE by
            rw [List.length_take]; omega)]
      unfold EncryptionManager.decrypt_file
      rw [hfs]
      simp only [hup]
      rw [if_pos hl]
    · have hup : HexHeader.unpack (content.take HexHeader.HEADER_SIZE)
          = .error ("INVALID FILE: Missing HexCore signature.".data) := by
        rw [HexHeader.unpack,
          if_neg (show ¬ (content.take HexHeader.HEADER_SIZE).length < HexHeader.HEADER_SIZE by
            rw [List.length_take]; omega),
          if_pos (show (content.take HexHeader.HEADER_SIZE).take 4 ≠ HexHeader.MAGIC by
            rw [hmagic content]; exact hm)]
      unfold EncryptionManager.decrypt_file
      rw [hfs]
      simp only [hup]
      rw [if_neg hl]
  · intro P fs file_path content hfs hm
    unfold EncryptionManager.verify_integrity
    rw [hfs]
    by_cases hl : content.length < 114
    · simp only [if_pos (show (content.take HexHeader.HEADER_SIZE).length
          < HexHeader.HEADER_SIZE by rw [List.length_take]; omega)]
    · simp only [if_neg (show ¬ (content.take HexHeader.HEADER_SIZE).length
          < HexHeader.HEADER_SIZE by rw [List.length_take]; omega),
        if_pos (show (content.take HexHeader.HEADER_SIZE).take 4 ≠ HexHeader.MAGIC by
          rw [hmagic content]; exact hm)]

/-- Claim C8 witness: concrete instances of each conjunct — a bad-magic
input is rejected by `unpack` both truncated (1 byte) and at full length
(114 bytes), `decrypt_file` returns the matching rejection for a truncated
and for a full-length bad-magic file leaving the file system unchanged,
`verify_integrity` reports INVALID FILE, and a well-formed header with
version byte 9 is accepted. -/
theorem C8_magic_checked_version_read_witness :
    HexHeader.unpack [0]
      = .error ("INVALID FILE: Header truncated or insufficient data.".data) ∧
    HexHeader.unpack (List.replicate 114 0)
      = .error ("INVALID FILE: Missing HexCore signature.".data) ∧
    HexHeader.unpack (HexHeader.magicHeader 9 1 (List.replicate 16 1)
        (List.replicate 12 2) (List.replicate 48 3) (List.replicate 32 4))
      = .ok ⟨1, List.replicate 16 1, List.replicate 12 2, List.replicate 48 3,
          List.replicate 32 4, 114⟩ ∧
    EncryptionManager.decrypt_file P0 [(("c".data : PyStr), ([1, 2, 3] : Bytes))]
        ("c".data) ("p".data)
      = ("INVALID FILE: Header truncated or insufficient data.".data,
         [(("c".data : PyStr), ([1, 2, 3] : Bytes))]) ∧
    EncryptionManager.decrypt_file P0 [(("b".data : PyStr), List.replicate 114 7)]
        ("b".data) ("p".data)
      = ("INVALID FILE: Missing HexCore signature.".data, [(("b".data : PyStr), List.replicate 114 7)]) ∧
    EncryptionManager.verify_integrity P0 [(("b".data : PyStr), List.replicate 114 7)]
        ("b".data) = "INVALID FILE".data :=
  ⟨C8_magic_checked_version_read.1 [0] (by decide),
   C8_magic_checked_version_read.1 (List.replicate 114 0) (by decide),
   C8_magic_checked_version_read.2.1 9 1 (List.replicate 16 1) (List.replicate 12 2)
     (List.replicate 48 3) (List.replicate 32 4) (by decide) (by decide) (by decide) (by decide),
   C8_magic_checked_version_read.2.2.1 P0 _ ("c".data) ("p".data)
     ([1, 2, 3] : Bytes) (by decide) (by decide),
   C8_magic_checked_version_read.2.2.1 P0 _ ("b".data) ("p".data)
     (List.replicate 114 7) (by decide) (by decide),
   C8_magic_checked_version_read.2.2.2 P0 _ ("b".data) (List.replicate 114 7)
     (by decide) (by decide)⟩

open EncryptionManager in
/-- Claim C6 (counterexample to the claim as stated): at the engine boundary
an encryption request with the unimplemented algorithm id 2 does *not*
return a "not supported" result: it silently succeeds, returning the
created `.hxc` path and writing an encrypted file. -/
theorem C6_engine_accepts_algo_2 :
    (encrypt_file P0 R0 [(("a".data : PyStr), ([9] : Bytes))] ("a".data) ("p".data) 2).1
      = "a.hxc".data ∧
    (fsGet (encrypt_file P0 R0 [(("a".data : PyStr), ([9] : Bytes))] ("a".data) ("p".data) 2).2
      ("a.hxc".data)).isSome = true := by
  decide

open EncryptionManager in
/-- Claim C6 (amended): the "not supported" outcome for the advertised RSA
option is produced by the UI dispatch, which never forwards such a request
to the engine: `trigger_action` on the RSA-4096 button yields only the
ALGORITHM NOT SUPPORTED banner.  The engine itself rejects nothing: for
every `algo_id` other than 0 that fits the header byte, `encrypt_file`
silently encrypts with the ChaCha20 branch (keystream selector 1) and
returns the output path, not a "not supported" result. -/
theorem C6_not_supported_only_in_ui :
    LayoutManager.trigger_action false ("RSA-4096".data)
      = .notSupported ("ALGORITHM NOT SUPPORTED".data) ∧
    ∀ (P : CryptoPrims) (R : RandomTape) (fs : FS) (file_path password : PyStr)
      (data : Bytes) (algo_id : Nat),
      fsGet fs file_path = some data → data.take 4 ≠ HexHeader.MAGIC →
      algo_id ≠ 0 → algo_id ≤ 255 →
      (encrypt_file P R fs file_path password algo_id).1 = file_path ++ ".hxc".data ∧
      fsGet (encrypt_file P R fs file_path password algo_id).2 (file_path ++ ".hxc".data)
        = some (HexHeader.packBytes R.salt R.headerIv algo_id
            (wrappedDek P R password algo_id data) (bodyChecksum P R algo_id data)
            ++ R.bodyIv ++ xorStream (P.ks 1 R.dek R.bodyIv) 0 data) := by
  constructor
  · decide
  · intro P R fs file_path password data algo_id hfs hnm hzero h255
    rw [encrypt_file_wf P R fs file_path password algo_id data hfs hnm h255]
    refine ⟨rfl, ?_⟩
    rw [fsGet_fsSet_self]
    have hc : bodyCipher P R algo_id data = xorStream (P.ks 1 R.dek R.bodyIv) 0 data := by
      rw [bodyCipher, if_neg (by simpa [HexHeader.ALGO_AES] using hzero)]
    rw [hc]

open EncryptionManager in
/-- Claim C6 witness: the universally quantified engine half at a concrete
input with `algo_id` 7. -/
theorem C6_not_supported_only_in_ui_witness :
    (encrypt_file P0 R0 [(("a".data : PyStr), ([9] : Bytes))] ("a".data) ("p".data) 7).1
      = "a".data ++ ".hxc".data ∧
    fsGet (encrypt_file P0 R0 [(("a".data : PyStr), ([9] : Bytes))] ("a".data) ("p".data) 7).2
        ("a".data ++ ".hxc".data)
      = some (HexHeader.packBytes R0.salt R0.headerIv 7
          (wrappedDek P0 R0 ("p".data) 7 [9]) (bodyChecksum P0 R0 7 [9])
          ++ R0.bodyIv ++ xorStream (P0.ks 1 R0.dek R0.bodyIv) 0 [9]) :=
  C6_not_supported_only_in_ui.2 P0 R0 [(("a".data : PyStr), ([9] : Bytes))]
    ("a".data) ("p".data) [9] 7 (by decide) (by decide) (by decide) (by decide)

namespace VaultManager

/-- Each loop iteration of `decrypt_vault` accounts for exactly one file:
it either increments `success` leaving the error list unchanged, or
increments `failed` appending exactly one reason. -/
theorem processOne_stats (engine : FS → PyStr → PyStr × FS) (export_dir : PyStr)
    (delete_encrypted : Bool) (acc : BatchStats) (fs : FS) (x : PyStr) :
    ((processOne engine export_dir delete_encrypted (acc, fs) x).1.success
        + (processOne engine export_dir delete_encrypted (acc, fs) x).1.failed
      = acc.success + acc.failed + 1) ∧
    ((processOne engine export_dir delete_encrypted (acc, fs) x).1.failed
        + acc.errors.length
      = acc.failed + (processOne engine export_dir delete_encrypted (acc, fs) x).1.errors.length) := by
  unfold processOne
  dsimp only
  split
  · split <;> constructor <;> simp [List.length_append] <;> omega
  · constructor <;> simp [List.length_append] <;> omega

/-- The loop of `decrypt_vault` processes every file: over any prefix the
stats grow by exactly the number of files, and the failure count always
exceeds the starting one by exactly the number of appended reasons. -/
theorem foldl_processOne_stats (engine : FS → PyStr → PyStr × FS) (export_dir : PyStr)
    (delete_encrypted : Bool) :
    ∀ (files : List PyStr) (acc : BatchStats) (fs : FS),
      ((files.foldl (processOne engine export_dir delete_encrypted) (acc, fs)).1.success
          + (files.foldl (processOne engine export_dir delete_encrypted) (acc, fs)).1.failed
        = acc.success + acc.failed + files.length) ∧
      ((files.foldl (processOne engine export_dir delete_encrypted) (acc, fs)).1.failed
          + acc.errors.length
        = acc.failed
          + (files.foldl (processOne engine export_dir delete_encrypted) (acc, fs)).1.errors.length)
  | [], acc, fs => by simp
  | x :: rest, acc, fs => by
    simp only [List.foldl_cons, List.length_cons]
    obtain ⟨h1, h2⟩ := processOne_stats engine export_dir delete_encrypted acc fs x
    obtain ⟨ih1, ih2⟩ := foldl_processOne_stats engine export_dir delete_encrypted rest
      (processOne engine export_dir delete_encrypted (acc, fs) x).1
      (processOne engine export_dir delete_encrypted (acc, fs) x).2
    simp only [Prod.mk.eta] at ih1 ih2
    constructor <;> omega

end VaultManager

open VaultManager in
/-- Claim C4: `decrypt_vault` never aborts on a file's failure: over a vault
holding `N` `.hxc` files of which `M` fail, it returns a stats object with
`success = N - M`, `failed = M`, and exactly `M` recorded reasons
(`success + failed = N` and the error list's length equals `failed`, for
every injected engine — failures included); when no `.hxc` files exist it
returns the distinct explicit empty-vault outcome instead of a zero-count
stats object. -/
theorem C4_batch_never_aborts (engine : FS → PyStr → PyStr × FS)
    (export_dir : PyStr) (delete_encrypted : Bool) (fs : FS) (vault_dir : PyStr) :
    (hxcFiles fs vault_dir = [] →
      decrypt_vault engine export_dir delete_encrypted fs vault_dir
        = (VaultOutcome.empty, fs)) ∧
    (hxcFiles fs vault_dir ≠ [] →
      ∃ st fs2, decrypt_vault engine export_dir delete_encrypted fs vault_dir
          = (VaultOutcome.stats st, fs2)
        ∧ st.success + st.failed = (hxcFiles fs vault_dir).length
        ∧ st.success = (hxcFiles fs vault_dir).length - st.failed
        ∧ st.errors.length = st.failed) := by
  constructor
  · intro h
    unfold decrypt_vault
    rw [h]
    rfl
  · intro h
    unfold decrypt_vault
    rw [if_neg (by simp [List.isEmpty_iff, h])]
    refine ⟨_, _, rfl, ?_, ?_, ?_⟩ <;>
    · obtain ⟨h1, h2⟩ := foldl_processOne_stats engine export_dir delete_encrypted
        (hxcFiles fs vault_dir) ⟨0, 0, []⟩ fs
      simp only [List.length_nil] at h1 h2
      omega

open VaultManager in
/-- Claim C4 witness: a vault holding one `.hxc` file under an engine that
always reports the wrong-password error yields stats `success = 0`,
`failed = 1`, one reason; and on that same file system a vault directory
holding no `.hxc` files yields the empty-vault outcome. -/
theorem C4_batch_never_aborts_witness :
    (hxcFiles [(("v/a.hxc".data : PyStr), ([0] : Bytes))] ("v".data) ≠ [] ∧
      ∃ st fs2,
        decrypt_vault (fun fs _ => ("WRONG PASSWORD OR TAMPERED HEADER".data, fs))
            ("e".data) true [(("v/a.hxc".data : PyStr), ([0] : Bytes))] ("v".data)
          = (VaultOutcome.stats st, fs2)
        ∧ st.success + st.failed
            = (hxcFiles [(("v/a.hxc".data : PyStr), ([0] : Bytes))] ("v".data)).length
        ∧ st.success
            = (hxcFiles [(("v/a.hxc".data : PyStr), ([0] : Bytes))] ("v".data)).length
              - st.failed
        ∧ st.errors.length = st.failed) ∧
    (hxcFiles [(("v/a.hxc".data : PyStr), ([0] : Bytes))] ("w".data) = [] ∧
      decrypt_vault (fun fs _ => ("WRONG PASSWORD OR TAMPERED HEADER".data, fs))
          ("e".data) true [(("v/a.hxc".data : PyStr), ([0] : Bytes))] ("w".data)
        = (VaultOutcome.empty, [(("v/a.hxc".data : PyStr), ([0] : Bytes))])) :=
  ⟨⟨by decide,
    (C4_batch_never_aborts (fun fs _ => ("WRONG PASSWORD OR TAMPERED HEADER".data, fs))
      ("e".data) true [(("v/a.hxc".data : PyStr), ([0] : Bytes))] ("v".data)).2 (by decide)⟩,
   ⟨by decide,
    (C4_batch_never_aborts (fun fs _ => ("WRONG PASSWORD OR TAMPERED HEADER".data, fs))
      ("e".data) true [(("v/a.hxc".data : PyStr), ([0] : Bytes))] ("w".data)).1 (by decide)⟩⟩

open VaultManager in
/-- Claim C5: the already-in-the-vault rejection of `encrypt_and_store` is a
raw `startswith` on the canonicalized paths, so a source file inside a
*sibling* directory whose name merely begins with the vault directory's
name — here `HEX_VAULT_backup/a.txt` against vault `HEX_VAULT` — is
wrongly rejected even though it is not inside the vault by the spec's
canonical-containment reading; a file genuinely inside the vault is
rejected as well. -/
theorem C5_vault_guard_rejects_sibling :
    ((encrypt_and_store (fun fs p _ _ => (p ++ ".hxc".data, fs))
        ("/h".data) ("HEX_VAULT".data)
        [(("HEX_VAULT_backup/a.txt".data : PyStr), ([1] : Bytes))]
        ("HEX_VAULT_backup/a.txt".data) ("pw".data) 0 true).1
      = "ERROR: File is already in the Vault.".data ∧
     specInsideVault ("/h".data) ("HEX_VAULT".data) ("HEX_VAULT_backup/a.txt".data)
      = false) ∧
    ((encrypt_and_store (fun fs p _ _ => (p ++ ".hxc".data, fs))
        ("/h".data) ("HEX_VAULT".data)
        [(("HEX_VAULT/b.txt".data : PyStr), ([1] : Bytes))]
        ("HEX_VAULT/b.txt".data) ("pw".data) 0 true).1
      = "ERROR: File is already in the Vault.".data ∧
     specInsideVault ("/h".data) ("HEX_VAULT".data) ("HEX_VAULT/b.txt".data) = true) := by
  decide

end HexCore
